import Mathlib

/-!
Shallow embedding of the two-agent event recommendation pipeline
(`eventLookupAgent`, `webSearchAgent`, `callAgent` of the repository), together
with a model of the JavaScript runtime operations the code relies on
(`String.prototype.split` / `trim` / `includes`, `JSON.parse`,
`JSON.stringify`).  All definitions are structurally recursive (fuelled where
needed) so that concrete inputs evaluate inside the kernel.
-/

/-- Whitespace recognised by the JavaScript `trim` (ASCII whitespace plus
vertical tab, form feed, NBSP and BOM; the code only ever trims model text). -/
def jsWsChar (c : Char) : Bool :=
  c == ' ' || c == '\t' || c == '\n' || c == '\r' || c.toNat == 11 ||
    c.toNat == 12 || c.toNat == 160 || c.toNat == 65279

/-- Model of JavaScript `String.prototype.trim`. -/
def jsTrim (s : String) : String :=
  ⟨((s.data.dropWhile jsWsChar).reverse.dropWhile jsWsChar).reverse⟩

/-- Fuelled worker for JavaScript `split` with a non-empty separator: cut at
every non-overlapping occurrence, scanning left to right.  Fuel `l.length`
always suffices because each step consumes at least one character. -/
def splitGo (sep : List Char) : Nat → List Char → List (List Char)
  | _, [] => [[]]
  | 0, l => [l]
  | fuel + 1, c :: rest =>
    if sep.isPrefixOf (c :: rest) then
      [] :: splitGo sep fuel ((c :: rest).drop sep.length)
    else
      match splitGo sep fuel rest with
      | [] => [[c]]
      | s :: ss => (c :: s) :: ss

/-- Model of JavaScript `String.prototype.split` (the separators used by the
code, the forward marker and a newline, are non-empty). -/
def jsSplit (s sep : String) : List String :=
  if sep.data.isEmpty then s.data.map (fun c => String.mk [c])
  else (splitGo sep.data s.data.length s.data).map String.mk

/-- Occurrence scan used to model `String.prototype.includes`. -/
def listContains (pat : List Char) : List Char → Bool
  | [] => pat.isEmpty
  | c :: rest => pat.isPrefixOf (c :: rest) || listContains pat rest

/-- Model of JavaScript `String.prototype.includes`. -/
def jsIncludes (s pat : String) : Bool :=
  listContains pat.data s.data

/-- Model of JavaScript `String.prototype.startsWith`. -/
def strStartsWith (s pre : String) : Bool :=
  pre.data.isPrefixOf s.data

/-- Directive-block splitting done by the web search agent:
`summary.split('\n').map(l => l.trim()).filter(l => l.length > 0)`. -/
def nonEmptyTrimmedLines (s : String) : List String :=
  ((jsSplit s "\n").map jsTrim).filter (fun l => l != "")

/-- JSON values as produced by `JSON.parse`.  A number literal is modelled
exactly as the decimal `mantissa * 10 ^ exponent` (the claims only ever touch
integer literals, so double rounding is irrelevant). -/
inductive JsonValue where
  | null : JsonValue
  | bool (b : Bool) : JsonValue
  | num (mantissa : Int) (exponent : Int) : JsonValue
  | str (s : String) : JsonValue
  | arr (elems : List JsonValue) : JsonValue
  | obj (fields : List (String × JsonValue)) : JsonValue

/-- Lower-case hexadecimal digit (used for `\u00XX` escapes of control
characters, as emitted by `JSON.stringify`). -/
def hexDigit (n : Nat) : Char :=
  if n < 10 then Char.ofNat (48 + n) else Char.ofNat (87 + n)

/-- Escape of a single character inside a JSON string literal, following
`JSON.stringify`: quote, backslash and the named control escapes use the short
forms, remaining control characters use `\u00XX`, everything else is literal. -/
def escapeChar (c : Char) : List Char :=
  if c = '"' then ['\\', '"']
  else if c = '\\' then ['\\', '\\']
  else if c = '\n' then ['\\', 'n']
  else if c = '\r' then ['\\', 'r']
  else if c = '\t' then ['\\', 't']
  else if c.toNat = 8 then ['\\', 'b']
  else if c.toNat = 12 then ['\\', 'f']
  else if c.toNat < 32 then
    ['\\', 'u', '0', '0', hexDigit (c.toNat / 16), hexDigit (c.toNat % 16)]
  else [c]

/-- Escape of a whole character sequence. -/
def escChars : List Char → List Char
  | [] => []
  | c :: cs => escapeChar c ++ escChars cs

/-- Rendering of a JSON string literal, quotes included. -/
def strLit (s : String) : List Char :=
  '"' :: (escChars s.data ++ ['"'])

/-- Decimal rendering of the number model.  Integer literals print as plain
integers; scaled literals print mantissa and exponent (no claim evaluates a
non-integer number, the case exists only so `jsonStringify` is total). -/
def numChars (m e : Int) : List Char :=
  if e = 0 then (toString m).data else (toString m ++ "e" ++ toString e).data

mutual

/-- Rendering of `JSON.stringify` (compact form, no spaces). -/
def stringifyChars : JsonValue → List Char
  | .null => "null".data
  | .bool true => "true".data
  | .bool false => "false".data
  | .num m e => numChars m e
  | .str s => strLit s
  | .arr xs => '[' :: (stringifyArr xs ++ [']'])
  | .obj fs => '{' :: (stringifyObj fs ++ ['}'])

/-- Comma-joined rendering of array elements. -/
def stringifyArr : List JsonValue → List Char
  | [] => []
  | [x] => stringifyChars x
  | x :: xs => stringifyChars x ++ ',' :: stringifyArr xs

/-- Comma-joined rendering of object members. -/
def stringifyObj : List (String × JsonValue) → List Char
  | [] => []
  | [(k, v)] => strLit k ++ ':' :: stringifyChars v
  | (k, v) :: fs => strLit k ++ ':' :: stringifyChars v ++ ',' :: stringifyObj fs

end

/-- Model of `JSON.stringify(v)`. -/
def jsonStringify (v : JsonValue) : String :=
  ⟨stringifyChars v⟩

/-- Whitespace allowed between JSON tokens (per the JSON grammar used by
`JSON.parse`). -/
def jsonWsChar (c : Char) : Bool :=
  c == ' ' || c == '\t' || c == '\n' || c == '\r'

/-- Skipping of inter-token whitespace. -/
def skipWs (l : List Char) : List Char :=
  l.dropWhile jsonWsChar

/-- Value of a hexadecimal digit character. -/
def hexVal (c : Char) : Option Nat :=
  if 48 ≤ c.toNat ∧ c.toNat ≤ 57 then some (c.toNat - 48)
  else if 97 ≤ c.toNat ∧ c.toNat ≤ 102 then some (c.toNat - 87)
  else if 65 ≤ c.toNat ∧ c.toNat ≤ 70 then some (c.toNat - 55)
  else none

/-- Prefixing of a parsed character onto a string-body parse result. -/
def consStr (c : Char) : Option (List Char × List Char) → Option (List Char × List Char)
  | some (cs, r) => some (c :: cs, r)
  | none => none

/-- Fuelled parser for the body of a JSON string literal (after the opening
quote): returns the decoded characters and the input after the closing quote.
Fuel `input.length + 1` always suffices. -/
def parseStringBody : Nat → List Char → Option (List Char × List Char)
  | 0, _ => none
  | _ + 1, [] => none
  | fuel + 1, c :: rest =>
    if c = '"' then some ([], rest)
    else if c = '\\' then
      match rest with
      | [] => none
      | e :: r2 =>
        if e = '"' then consStr '"' (parseStringBody fuel r2)
        else if e = '\\' then consStr '\\' (parseStringBody fuel r2)
        else if e = '/' then consStr '/' (parseStringBody fuel r2)
        else if e = 'n' then consStr '\n' (parseStringBody fuel r2)
        else if e = 't' then consStr '\t' (parseStringBody fuel r2)
        else if e = 'r' then consStr '\r' (parseStringBody fuel r2)
        else if e = 'b' then consStr (Char.ofNat 8) (parseStringBody fuel r2)
        else if e = 'f' then consStr (Char.ofNat 12) (parseStringBody fuel r2)
        else if e = 'u' then
          match r2 with
          | h1 :: h2 :: h3 :: h4 :: r3 =>
            match hexVal h1, hexVal h2, hexVal h3, hexVal h4 with
            | some a, some b, some c2, some d2 =>
              let n := ((a * 16 + b) * 16 + c2) * 16 + d2
              if Nat.isValidChar n then consStr (Char.ofNat n) (parseStringBody fuel r3)
              else none
            | _, _, _, _ => none
          | _ => none
        else none
    else if c.toNat < 32 then none
    else consStr c (parseStringBody fuel rest)

/-- Greedy digit prefix of the input. -/
def takeDigits : List Char → List Char × List Char
  | [] => ([], [])
  | c :: rest =>
    if c.isDigit then
      ((c :: (takeDigits rest).1), (takeDigits rest).2)
    else ([], c :: rest)

/-- Numeric value of a digit sequence. -/
def digitsToNat (ds : List Char) : Nat :=
  ds.foldl (fun acc c => acc * 10 + (c.toNat - 48)) 0

/-- Exponent part of a JSON number literal. -/
def parseExp (neg : Bool) (mant : Nat) (scale : Int) (l : List Char) :
    Option (JsonValue × List Char) :=
  let mk : Int → List Char → Option (JsonValue × List Char) := fun e rest =>
    some (.num (if neg then -(mant : Int) else (mant : Int)) (scale + e), rest)
  match l with
  | c :: r =>
    if c = 'e' ∨ c = 'E' then
      match r with
      | '+' :: r2 =>
        match takeDigits r2 with
        | ([], _) => none
        | (ds, r3) => mk (digitsToNat ds) r3
      | '-' :: r2 =>
        match takeDigits r2 with
        | ([], _) => none
        | (ds, r3) => mk (-(digitsToNat ds : Int)) r3
      | _ =>
        match takeDigits r with
        | ([], _) => none
        | (ds, r3) => mk (digitsToNat ds) r3
    else mk 0 (c :: r)
  | [] => mk 0 []

/-- Fraction part of a JSON number literal. -/
def parseFrac (neg : Bool) (iv : Nat) (l : List Char) : Option (JsonValue × List Char) :=
  match l with
  | '.' :: r =>
    match takeDigits r with
    | ([], _) => none
    | (ds, r2) => parseExp neg (iv * 10 ^ ds.length + digitsToNat ds) (-(ds.length : Int)) r2
  | _ => parseExp neg iv 0 l

/-- JSON number literal (with the leading-zero rule of the JSON grammar). -/
def parseNumber (l : List Char) : Option (JsonValue × List Char) :=
  match l with
  | '-' :: l1 =>
    match l1 with
    | c :: rest =>
      if c = '0' then
        match rest with
        | d :: _ => if d.isDigit then none else parseFrac true 0 rest
        | [] => parseFrac true 0 []
      else if c.isDigit then parseFrac true (digitsToNat (c :: (takeDigits rest).1)) (takeDigits rest).2
      else none
    | [] => none
  | c :: rest =>
    if c = '0' then
      match rest with
      | d :: _ => if d.isDigit then none else parseFrac false 0 rest
      | [] => parseFrac false 0 []
    else if c.isDigit then parseFrac false (digitsToNat (c :: (takeDigits rest).1)) (takeDigits rest).2
    else none
  | [] => none

/-- Parsing modes: a full value, the members of an object (after `{`, first key
expected), or the elements of an array (after `[`, first element expected). -/
inductive PMode where
  | val : PMode
  | members : PMode
  | elems : PMode

/-- Fuelled recursive-descent parser implementing `JSON.parse`.  Members mode
returns its fields wrapped in `JsonValue.obj`, elements mode in
`JsonValue.arr`.  Fuel `input.length + 10` always suffices because every
recursive call consumes at least one input character. -/
def parseF : Nat → PMode → List Char → Option (JsonValue × List Char)
  | 0, _, _ => none
  | fuel + 1, .val, l =>
    match skipWs l with
    | 'n' :: 'u' :: 'l' :: 'l' :: r => some (.null, r)
    | 't' :: 'r' :: 'u' :: 'e' :: r => some (.bool true, r)
    | 'f' :: 'a' :: 'l' :: 's' :: 'e' :: r => some (.bool false, r)
    | '"' :: r =>
      (match parseStringBody (r.length + 1) r with
       | some (cs, r2) => some (.str ⟨cs⟩, r2)
       | none => none)
    | '{' :: r =>
      (match skipWs r with
       | '}' :: r2 => some (.obj [], r2)
       | r2 => parseF fuel .members r2)
    | '[' :: r =>
      (match skipWs r with
       | ']' :: r2 => some (.arr [], r2)
       | r2 => parseF fuel .elems r2)
    | r => parseNumber r
  | fuel + 1, .members, l =>
    match l with
    | '"' :: r =>
      (match parseStringBody (r.length + 1) r with
       | some (kcs, r1) =>
         (match skipWs r1 with
          | ':' :: r2 =>
            (match parseF fuel .val r2 with
             | some (v, r3) =>
               (match skipWs r3 with
                | ',' :: r4 =>
                  (match parseF fuel .members (skipWs r4) with
                   | some (.obj fs, r5) => some (.obj ((⟨kcs⟩, v) :: fs), r5)
                   | _ => none)
                | '}' :: r4 => some (.obj [(⟨kcs⟩, v)], r4)
                | _ => none)
             | none => none)
          | _ => none)
       | none => none)
    | _ => none
  | fuel + 1, .elems, l =>
    match parseF fuel .val l with
    | some (v, r1) =>
      (match skipWs r1 with
       | ',' :: r2 =>
         (match parseF fuel .elems r2 with
          | some (.arr xs, r3) => some (.arr (v :: xs), r3)
          | _ => none)
       | ']' :: r2 => some (.arr [v], r2)
       | _ => none)
    | none => none

/-- Model of `JSON.parse`: `none` stands for the thrown `SyntaxError`. -/
def jsonParse (s : String) : Option JsonValue :=
  match parseF (s.length + 10) .val s.data with
  | some (v, rest) => if skipWs rest = [] then some v else none
  | none => none

/-- Continuation of the members-mode parser after a key has been read
(proof-layer refactoring of the corresponding branch of `parseF`). -/
def parseFMemTail (fuel : Nat) (k : String) : List Char → Option (JsonValue × List Char)
  | ':' :: r2 =>
    (match parseF fuel PMode.val r2 with
     | some (v, r3) =>
       (match skipWs r3 with
        | ',' :: r4 =>
          (match parseF fuel PMode.members (skipWs r4) with
           | some (.obj fs, r5) => some (.obj ((k, v) :: fs), r5)
           | _ => none)
        | '}' :: r4 => some (.obj [(k, v)], r4)
        | _ => none)
     | none => none)
  | _ => none

/-- Rendered string literal followed by a continuation, in the right-nested
form the parser consumes (proof-layer normal form). -/
def strTok (s : String) (t : List Char) : List Char :=
  '"' :: (escChars s.data ++ ('"' :: t))

/-- Property lookup on a parsed JSON object (with duplicate keys the last one
wins, matching `JSON.parse`). -/
def jsLookup (fields : List (String × JsonValue)) (key : String) : Option JsonValue :=
  ((fields.filter (fun kv => kv.1 == key)).getLast?).map Prod.snd

/-- JavaScript truthiness of a parsed JSON value. -/
def jsTruthy : JsonValue → Bool
  | .null => false
  | .bool b => b
  | .num m _ => m != 0
  | .str s => s != ""
  | .arr _ => true
  | .obj _ => true

/-- Result of the property access `parsedQuery.searchSummary` when
`parsedQuery` is not `null`: `none` models the JavaScript `undefined` (which is
falsy).  Access on `null` throws and is handled by the caller. -/
def summaryMember : JsonValue → Option JsonValue
  | .obj fs => jsLookup fs "searchSummary"
  | _ => none

/-- Search-directive extraction from a successfully parsed query
(`webSearchAgent` lines 181-190): access `searchSummary` (throws on `null`),
and when it is truthy split it into non-empty trimmed lines (`.split` throws on
a truthy non-string).  `Except.error` carries the thrown `TypeError`. -/
def searchQueriesOfParsed : JsonValue → Except String (List String)
  | .null => .error "TypeError: cannot read properties of null"
  | v =>
    match summaryMember v with
    | some m =>
      if jsTruthy m then
        match m with
        | .str s => .ok (nonEmptyTrimmedLines s)
        | _ => .error "TypeError: split is not a function"
      else .ok []
    | none => .ok []

/-- Search-directive list computed by `webSearchAgent`'s try/catch around
`JSON.parse` (lines 179-193): any throw inside the try block falls back to
using the raw query as the sole directive. -/
def computeSearchQueries (query : String) : List String :=
  match jsonParse query with
  | none => [query]
  | some v =>
    match searchQueriesOfParsed v with
    | .ok qs => qs
    | .error _ => [query]

/-- Indentation for the pretty stringify. -/
def indentChars (n : Nat) : List Char :=
  List.replicate n ' '

mutual

/-- Pretty rendering matching `JSON.stringify(x, null, 2)` (used only to build
the synthesis prompt, which every claim treats as opaque). -/
def prettyChars : Nat → JsonValue → List Char
  | _, .null => "null".data
  | _, .bool true => "true".data
  | _, .bool false => "false".data
  | _, .num m e => numChars m e
  | _, .str s => strLit s
  | _, .arr [] => ['[', ']']
  | _, .obj [] => ['{', '}']
  | ind, .arr xs => '[' :: '\n' :: (prettyArr (ind + 2) xs ++ '\n' :: (indentChars ind ++ [']']))
  | ind, .obj fs => '{' :: '\n' :: (prettyObj (ind + 2) fs ++ '\n' :: (indentChars ind ++ ['}']))

/-- Pretty rendering of array elements. -/
def prettyArr : Nat → List JsonValue → List Char
  | _, [] => []
  | ind, [x] => indentChars ind ++ prettyChars ind x
  | ind, x :: xs => indentChars ind ++ prettyChars ind x ++ ',' :: '\n' :: prettyArr ind xs

/-- Pretty rendering of object members. -/
def prettyObj : Nat → List (String × JsonValue) → List Char
  | _, [] => []
  | ind, [(k, v)] => indentChars ind ++ strLit k ++ ':' :: ' ' :: prettyChars ind v
  | ind, (k, v) :: fs =>
    indentChars ind ++ strLit k ++ ':' :: ' ' :: prettyChars ind v ++ ',' :: '\n' :: prettyObj ind fs

end

/-- Model of `JSON.stringify(v, null, 2)`. -/
def jsonStringifyIndent2 (v : JsonValue) : String :=
  ⟨prettyChars 0 v⟩

/-- Forward marker of the inter-agent handoff protocol. -/
def markerForward : String := "PASS_TO_WEB_AGENT"

/-- No-results marker of the inter-agent handoff protocol. -/
def markerNoResults : String := "NO_RESULTS_FOUND"

/-- Success marker that prefixes the verification fallbacks. -/
def markerRecommendations : String := "RECOMMENDATIONS"

/-- Observable behaviour of one chat-model invocation inside the retrieval
loop: it either requests a tool call, produces a final answer, or the
invocation faults (model error, or the 60s invoke timeout firing). -/
inductive ModelStep where
  | requestTool : ModelStep
  | finalAnswer (content : String) : ModelStep
  | fault : ModelStep

/-- Outcome of racing one Tavily search against its 10s deadline
(`webSearchAgent` lines 200-212): either the result string, or the message of
the rejection (a search error or the `Search timeout`). -/
inductive SearchOutcome where
  | success (result : String) : SearchOutcome
  | failure (errMsg : String) : SearchOutcome

/-- Outcome of the synthesis step raced against its 15s deadline
(`webSearchAgent` lines 216-241): the model content arrives first, the model
invocation fails (the inner catch resolves the fallback), or the
`Processing timeout` rejection wins the race. -/
inductive SynthOutcome where
  | content (text : String) : SynthOutcome
  | modelError : SynthOutcome
  | timeout : SynthOutcome

/-- Environment of one pipeline run: behaviour of every external collaborator
(chat model replies in the retrieval loop, per-query web search races, the
synthesis race, and whether the whole-web-stage 45s timer wins its race). -/
structure AgentEnv where
  replies : Nat → ModelStep
  searchOutcome : String → Nat → SearchOutcome
  synthOutcome : String → Nat → SynthOutcome
  stageTimedOut : Nat → Bool

/-- Recursion limit passed to the LangGraph `invoke`
(`eventLookupAgent` line 150). -/
def retrievalRecursionLimit : Nat := 15

/-- LangGraph-style loop of `eventLookupAgent`: agent and tools supersteps
alternate, each consuming one unit of the recursion limit; exhausting the limit
(or a faulting model invocation) is a thrown error.  Returns the number of
completed full cycles (one model invocation plus its tool execution) and the
outcome. -/
def runGraphAux (replies : Nat → ModelStep) : Nat → Nat → Nat × Except Unit String
  | 0, _ => (0, .error ())
  | 1, calls =>
    match replies calls with
    | .fault => (0, .error ())
    | .finalAnswer s => (0, .ok s)
    | .requestTool => (0, .error ())
  | stepsLeft + 2, calls =>
    match replies calls with
    | .fault => (0, .error ())
    | .finalAnswer s => (0, .ok s)
    | .requestTool =>
      ((runGraphAux replies stepsLeft (calls + 1)).1 + 1,
        (runGraphAux replies stepsLeft (calls + 1)).2)

/-- Embedding of `eventLookupAgent` (lines 20-161): run the tool loop under the
recursion limit; the surrounding catch converts every thrown error into the
reported `NO_RESULTS_FOUND` value.  The model content is modelled as the string
it contributes to the transcript. -/
def eventLookupAgent (replies : Nat → ModelStep) : String :=
  match (runGraphAux replies retrievalRecursionLimit 0).2 with
  | .ok s => s
  | .error _ => markerNoResults

/-- Outcome of the vector-search collaborator inside the `events_lookup` tool:
a result list (`none` models a null-ish result, covering `!result`), or a
thrown error with its message. -/
inductive VsOutcome where
  | ok (result : Option (List JsonValue)) : VsOutcome
  | err (msg : String) : VsOutcome

/-- Embedding of the `events_lookup` tool body (lines 32-69): empty or missing
results produce the NO_RESULTS_FOUND payload; a thrown collaborator error
produces the same payload with an extra `error` field. -/
def eventLookupTool (_query : String) : VsOutcome → String
  | .ok none => jsonStringify (.obj [("message", .str markerNoResults)])
  | .ok (some rs) =>
    if rs.isEmpty then jsonStringify (.obj [("message", .str markerNoResults)])
    else jsonStringify (.arr rs)
  | .err m => jsonStringify (.obj [("message", .str markerNoResults), ("error", .str m)])

/-- Per-query deadline of one web search (`setTimeout(..., 10000)`, line 203). -/
def searchQueryTimeoutMs : Nat := 10000

/-- Deadline of the synthesis step (`setTimeout(..., 15000)`, line 237). -/
def synthesisTimeoutMs : Nat := 15000

/-- Deadline of the whole web stage as wrapped by the controller
(`setTimeout(..., 45000)`, lines 273 and 287). -/
def webStageTimeoutMs : Nat := 45000

/-- Record pushed into `searchResults` for one search query (lines 208, 211). -/
def searchRecord (q : String) : SearchOutcome → JsonValue
  | .success r => .obj [("query", .str q), ("results", .str r)]
  | .failure e => .obj [("query", .str q), ("error", .str e)]

/-- Context block of the synthesis prompt (template literal, lines 220-224). -/
def resultsContext (query dbResults : String) (searchResults : List JsonValue) : String :=
  "\n                Original Query: " ++ query ++
    "\n                Database Results: " ++ dbResults ++ " " ++
    "\n                Web Search Results: " ++ jsonStringifyIndent2 (.arr searchResults) ++
    "\n                "

/-- Synthesis prompt sent to the chat model (line 227). -/
def synthesisPrompt (query dbResults : String) (searchResults : List JsonValue) : String :=
  "You are an event recommendation assistant. Based on these search results, provide a concise summary of verified events and venues. Include social media links and website URLs where available. Start your response with RECOMMENDATIONS:\n\n" ++
    resultsContext query dbResults searchResults

/-- Deterministic fallback of the verification agent (lines 232, 241, 245). -/
def recommendFallback (dbResults : String) : String :=
  "RECOMMENDATIONS\nI found these events but couldn't verify all details:\n" ++ dbResults

/-- Embedding of `webSearchAgent` (lines 166-247): derive the search
directives, run each query's race, then race the synthesis; a model error or
the processing timeout both yield the deterministic fallback. -/
def webSearchAgent (env : AgentEnv) (query dbResults : String) : String :=
  match
    env.synthOutcome
      (synthesisPrompt query dbResults
        ((computeSearchQueries query).map
          (fun q => searchRecord q (env.searchOutcome q searchQueryTimeoutMs))))
      synthesisTimeoutMs
  with
  | .content c => c
  | .modelError => recommendFallback dbResults
  | .timeout => recommendFallback dbResults

/-- Fixed nothing-found fallback of the web-only branch (line 293). -/
def nothingFoundMsg : String :=
  "RECOMMENDATIONS\nI couldn't find any specific events in our database or through web search. Please try a different city or check back later."

/-- Fixed apology returned by the controller's boundary catch (line 302). -/
def apologyMsg : String :=
  "I apologize, but I encountered an error while processing your request. Please try again or rephrase your query."

/-- Fallback of the forward branch when the 45s stage race rejects (line 280):
note the untrimmed `split[0]` here. -/
def forwardStageFallback (d : String) : String :=
  "RECOMMENDATIONS\nI found some events but couldn't verify all details:\n" ++
    ((jsSplit d markerForward).headD "")

/-- Enhanced query object built by the controller's forward branch
(lines 261-267). -/
def enhancedQueryJson (query d : String) : JsonValue :=
  .obj [("originalQuery", .str query),
        ("searchSummary", .str (jsTrim ((jsSplit d markerForward).getD 1 ""))),
        ("dbResults", .str (jsTrim ((jsSplit d markerForward).headD "")))]

/-- Race of the forward-branch web stage against its 45s deadline
(lines 271-276); `Except.error` is the timer's rejection. -/
def raceForward (env : AgentEnv) (query d : String) : Except String String :=
  if env.stageTimedOut webStageTimeoutMs then .error "Web search process timeout"
  else .ok (webSearchAgent env (jsonStringify (enhancedQueryJson query d)) d)

/-- Race of the web-only stage against its 45s deadline (lines 285-290). -/
def raceWebOnly (env : AgentEnv) (query : String) : Except String String :=
  if env.stageTimedOut webStageTimeoutMs then .error "Web search process timeout"
  else .ok (webSearchAgent env query "No database results found.")

/-- Body of `callAgent` (lines 250-299), before the boundary catch: run the
retrieval agent, dispatch on the handoff markers, and handle each stage race
with its local catch (lines 278-281 and 292-294). -/
def callAgentBody (env : AgentEnv) (query : String) : Except String String :=
  if eventLookupAgent env.replies ≠ "" then
    if jsIncludes (eventLookupAgent env.replies) markerForward then
      .ok (match raceForward env query (eventLookupAgent env.replies) with
           | .ok r => r
           | .error _ => forwardStageFallback (eventLookupAgent env.replies))
    else if jsIncludes (eventLookupAgent env.replies) markerNoResults then
      .ok (match raceWebOnly env query with
           | .ok r => r
           | .error _ => nothingFoundMsg)
    else .ok (eventLookupAgent env.replies)
  else .ok (eventLookupAgent env.replies)

/-- Embedding of `callAgent` (lines 249-304): the controller with its boundary
catch, which converts any fault that reaches it into the fixed apology. -/
def callAgent (env : AgentEnv) (query : String) : Except String String :=
  match callAgentBody env query with
  | .ok s => .ok s
  | .error _ => .ok apologyMsg

/-- Spec-side reading of claim C1: the raw directive block is everything after
the FIRST occurrence of the forward marker (rejoining all later split parts
with the marker reconstructs exactly the text after its first occurrence). -/
def specAfterFirstMarker (d : String) : String :=
  markerForward.intercalate ((jsSplit d markerForward).tail)

/-- Every character escapes to at least one character. -/
theorem escChars_length_ge (cs : List Char) : cs.length ≤ (escChars cs).length := by
  induction cs with
  | nil => simp [escChars]
  | cons c cs ih =>
    have h1 : 1 ≤ (escapeChar c).length := by
      unfold escapeChar
      repeat' split
      all_goals simp
    simp only [escChars, List.length_append, List.length_cons]
    omega

/-- Hexadecimal digits round-trip. -/
theorem hexVal_hexDigit : ∀ n < 16, hexVal (hexDigit n) = some n := by decide

/-- Every character carries a valid scalar value. -/
theorem char_valid_nat (c : Char) : Nat.isValidChar c.toNat := c.valid

/-- The string-body parser consumes exactly one escaped character per step. -/
theorem parseStringBody_escapeChar (c : Char) (f : Nat) (t : List Char) :
    parseStringBody (f + 1) (escapeChar c ++ t) = consStr c (parseStringBody f t) := by
  by_cases h1 : c = '"'
  · subst h1; simp +decide [escapeChar, parseStringBody]
  by_cases h2 : c = '\\'
  · subst h2; simp +decide [escapeChar, parseStringBody]
  by_cases h3 : c = '\n'
  · subst h3; simp +decide [escapeChar, parseStringBody]
  by_cases h4 : c = '\r'
  · subst h4; simp +decide [escapeChar, parseStringBody]
  by_cases h5 : c = '\t'
  · subst h5; simp +decide [escapeChar, parseStringBody]
  by_cases h6 : c.toNat = 8
  · have hc : c = Char.ofNat 8 := by rw [← h6, Char.ofNat_toNat]
    simp [escapeChar, h1, h2, h3, h4, h5, h6, parseStringBody]
    simp +decide [hc]
  by_cases h7 : c.toNat = 12
  · have hc : c = Char.ofNat 12 := by rw [← h7, Char.ofNat_toNat]
    simp [escapeChar, h1, h2, h3, h4, h5, h6, h7, parseStringBody]
    simp +decide [hc]
  by_cases h8 : c.toNat < 32
  · have hd1 : hexVal (hexDigit (c.toNat / 16)) = some (c.toNat / 16) :=
      hexVal_hexDigit _ (by omega)
    have hd2 : hexVal (hexDigit (c.toNat % 16)) = some (c.toNat % 16) :=
      hexVal_hexDigit _ (by omega)
    have hn : c.toNat / 16 * 16 + c.toNat % 16 = c.toNat := by omega
    have h0 : hexVal '0' = some 0 := rfl
    simp +decide [escapeChar, h1, h2, h3, h4, h5, h6, h7, h8, parseStringBody, hd1, hd2, h0, hn,
      char_valid_nat c, Char.ofNat_toNat]
  · simp [escapeChar, h1, h2, h3, h4, h5, h6, h7, h8, parseStringBody]

/-- Round trip of an escaped string body with enough fuel. -/
theorem parseStringBody_esc (cs : List Char) :
    ∀ (fuel : Nat) (rest : List Char), cs.length + 1 ≤ fuel →
      parseStringBody fuel (escChars cs ++ '"' :: rest) = some (cs, rest) := by
  induction cs with
  | nil =>
    intro fuel rest h
    obtain ⟨f, rfl⟩ : ∃ f, fuel = f + 1 := ⟨fuel - 1, by omega⟩
    simp +decide [escChars, parseStringBody]
  | cons c cs ih =>
    intro fuel rest h
    obtain ⟨f, rfl⟩ : ∃ f, fuel = f + 1 := ⟨fuel - 1, by omega⟩
    have hsplit : escChars (c :: cs) ++ '"' :: rest = escapeChar c ++ (escChars cs ++ '"' :: rest) := by
      simp [escChars]
    rw [hsplit, parseStringBody_escapeChar, ih f rest (by simp at h; omega)]
    rfl

/-- Round trip of an escaped string body at the fuel `parseF` supplies. -/
theorem parseStringBody_at (cs rest : List Char) :
    parseStringBody ((escChars cs ++ '"' :: rest).length + 1) (escChars cs ++ '"' :: rest) =
      some (cs, rest) := by
  apply parseStringBody_esc
  have := escChars_length_ge cs
  simp only [List.length_append, List.length_cons]
  omega

/-- Whitespace skipping is inert before an opening brace. -/
theorem skipWs_lbrace (l : List Char) : skipWs ('{' :: l) = '{' :: l := rfl

/-- Whitespace skipping is inert before a quote. -/
theorem skipWs_quote (l : List Char) : skipWs ('"' :: l) = '"' :: l := rfl

/-- Whitespace skipping is inert before a colon. -/
theorem skipWs_colon (l : List Char) : skipWs (':' :: l) = ':' :: l := rfl

/-- Whitespace skipping is inert before a comma. -/
theorem skipWs_comma (l : List Char) : skipWs (',' :: l) = ',' :: l := rfl

/-- Whitespace skipping is inert before a string token. -/
theorem skipWs_strTok (s : String) (t : List Char) : skipWs (strTok s t) = strTok s t := rfl

/-- Rebuilding a string from its characters is the identity. -/
theorem mkData_eq (s : String) : String.mk s.data = s := rfl

/-- Members mode after the key string: hand over to the tail continuation. -/
theorem parseF_members_step (fuel : Nat) (X cs r1 : List Char)
    (hX : parseStringBody (X.length + 1) X = some (cs, r1)) :
    parseF (fuel + 1) PMode.members ('"' :: X) = parseFMemTail fuel (String.mk cs) (skipWs r1) := by
  simp only [parseF, hX]
  rfl

/-- Value mode on a string literal. -/
theorem parseF_val_str (fuel : Nat) (X cs r2 : List Char)
    (hX : parseStringBody (X.length + 1) X = some (cs, r2)) :
    parseF (fuel + 1) PMode.val ('"' :: X) = some (.str (String.mk cs), r2) := by
  simp only [parseF, skipWs_quote, hX]

/-- Members mode on a rendered key token. -/
theorem parseF_members_tok (fuel : Nat) (k : String) (X : List Char) :
    parseF (fuel + 1) PMode.members (strTok k X) = parseFMemTail fuel k (skipWs X) := by
  show parseF (fuel + 1) PMode.members ('"' :: (escChars k.data ++ ('"' :: X))) = _
  rw [parseF_members_step fuel _ k.data X (parseStringBody_at k.data X), mkData_eq]

/-- Value mode on a rendered string token. -/
theorem parseF_val_tok (fuel : Nat) (s : String) (X : List Char) :
    parseF (fuel + 1) PMode.val (strTok s X) = some (.str s, X) := by
  show parseF (fuel + 1) PMode.val ('"' :: (escChars s.data ++ ('"' :: X))) = _
  rw [parseF_val_str fuel _ s.data X (parseStringBody_at s.data X), mkData_eq]

/-- Unfolding of the member tail continuation at a colon. -/
theorem parseFMemTail_colon (fuel : Nat) (k : String) (r2 : List Char) :
    parseFMemTail fuel k (':' :: r2) =
      (match parseF fuel PMode.val r2 with
       | some (v, r3) =>
         (match skipWs r3 with
          | ',' :: r4 =>
            (match parseF fuel PMode.members (skipWs r4) with
             | some (.obj fs, r5) => some (.obj ((k, v) :: fs), r5)
             | _ => none)
          | '}' :: r4 => some (.obj [(k, v)], r4)
          | _ => none)
       | none => none) := rfl

/-- Parsing the rendering of a three-field object of strings. -/
theorem parseF_obj3 (f : Nat) (k1 s1 k2 s2 k3 s3 : String) (t : List Char) :
    parseF (f + 1 + 1 + 1 + 1 + 1) PMode.val
      ('{' :: strTok k1 (':' :: strTok s1 (',' ::
        strTok k2 (':' :: strTok s2 (',' ::
          strTok k3 (':' :: strTok s3 ('}' :: t))))))) =
      some (.obj [(k1, .str s1), (k2, .str s2), (k3, .str s3)], t) := by
  have h3 : parseF (f + 1 + 1) PMode.members (strTok k3 (':' :: strTok s3 ('}' :: t))) =
      some (.obj [(k3, .str s3)], t) := by
    rw [parseF_members_tok, skipWs_colon, parseFMemTail_colon, parseF_val_tok]
    rfl
  have h2 : parseF (f + 1 + 1 + 1) PMode.members
      (strTok k2 (':' :: strTok s2 (',' :: strTok k3 (':' :: strTok s3 ('}' :: t))))) =
      some (.obj [(k2, .str s2), (k3, .str s3)], t) := by
    rw [parseF_members_tok, skipWs_colon, parseFMemTail_colon, parseF_val_tok]
    simp only [skipWs_comma, skipWs_strTok, h3]
  have h1 : parseF (f + 1 + 1 + 1 + 1) PMode.members
      (strTok k1 (':' :: strTok s1 (',' ::
        strTok k2 (':' :: strTok s2 (',' :: strTok k3 (':' :: strTok s3 ('}' :: t))))))) =
      some (.obj [(k1, .str s1), (k2, .str s2), (k3, .str s3)], t) := by
    rw [parseF_members_tok, skipWs_colon, parseFMemTail_colon, parseF_val_tok]
    simp only [skipWs_comma, skipWs_strTok, h2]
  have h0 : parseF (f + 1 + 1 + 1 + 1 + 1) PMode.val
      ('{' :: strTok k1 (':' :: strTok s1 (',' ::
        strTok k2 (':' :: strTok s2 (',' ::
          strTok k3 (':' :: strTok s3 ('}' :: t))))))) =
      parseF (f + 1 + 1 + 1 + 1) PMode.members
        (strTok k1 (':' :: strTok s1 (',' ::
          strTok k2 (':' :: strTok s2 (',' ::
            strTok k3 (':' :: strTok s3 ('}' :: t))))))) := rfl
  rw [h0, h1]

/-- Rendering of a three-field object of strings, in parser normal form. -/
theorem stringify_obj3_data (k1 s1 k2 s2 k3 s3 : String) :
    (jsonStringify (.obj [(k1, .str s1), (k2, .str s2), (k3, .str s3)])).data =
      '{' :: strTok k1 (':' :: strTok s1 (',' ::
        strTok k2 (':' :: strTok s2 (',' ::
          strTok k3 (':' :: strTok s3 ('}' :: [])))))) := by
  simp [jsonStringify, stringifyChars, stringifyObj, strLit, strTok, List.append_assoc]

/-- Round trip of `JSON.parse` after `JSON.stringify` on a three-field object
of strings (the shape of the enhanced query the controller forwards). -/
theorem jsonParse_strObj3 (k1 s1 k2 s2 k3 s3 : String) :
    jsonParse (jsonStringify (.obj [(k1, .str s1), (k2, .str s2), (k3, .str s3)])) =
      some (.obj [(k1, .str s1), (k2, .str s2), (k3, .str s3)]) := by
  obtain ⟨f, hf⟩ :
      ∃ f, (jsonStringify (.obj [(k1, .str s1), (k2, .str s2), (k3, .str s3)])).length + 10 =
        f + 1 + 1 + 1 + 1 + 1 :=
    ⟨(jsonStringify (.obj [(k1, .str s1), (k2, .str s2), (k3, .str s3)])).length + 5, by omega⟩
  unfold jsonParse
  rw [hf, stringify_obj3_data, parseF_obj3]
  rfl

/-- Directive extraction on the parsed enhanced query: exactly the non-empty
trimmed lines of its `searchSummary` string. -/
theorem searchQueriesOfParsed_obj3mid (q S D : String) :
    searchQueriesOfParsed
      (.obj [("originalQuery", .str q), ("searchSummary", .str S), ("dbResults", .str D)]) =
      .ok (nonEmptyTrimmedLines S) := by
  by_cases h : S = ""
  · subst h
    rfl
  · have hb : ((S != "") : Bool) = true := by simpa using h
    simp [searchQueriesOfParsed, summaryMember, jsLookup, jsTruthy, hb]

/-- End-to-end directive derivation of the forward branch: the directives the
web agent issues are the non-empty trimmed lines of the trimmed text between
the first and second occurrence of the forward marker. -/
theorem computeSearchQueries_enhanced (q d : String) :
    computeSearchQueries (jsonStringify (enhancedQueryJson q d)) =
      nonEmptyTrimmedLines (jsTrim ((jsSplit d markerForward).getD 1 "")) := by
  simp only [computeSearchQueries, enhancedQueryJson, jsonParse_strObj3,
    searchQueriesOfParsed_obj3mid]

/-- A list is a boolean prefix of itself followed by anything. -/
theorem isPrefixOf_append_self (l t : List Char) : l.isPrefixOf (l ++ t) = true := by
  induction l with
  | nil => simp [List.isPrefixOf]
  | cons c cs ih => simp [List.isPrefixOf, ih]

/-- An occurrence on the right survives prepending. -/
theorem listContains_append_right (pat xs : List Char) {l : List Char}
    (h : listContains pat l = true) : listContains pat (xs ++ l) = true := by
  induction xs with
  | nil => simpa
  | cons c cs ih => simp [listContains, ih]

/-- A non-empty pattern occurs at the head of itself followed by anything. -/
theorem listContains_self_append (pat t : List Char) (h : pat ≠ []) :
    listContains pat (pat ++ t) = true := by
  cases pat with
  | nil => exact absurd rfl h
  | cons c cs => simp [listContains, List.isPrefixOf, isPrefixOf_append_self]

/-- The verification fallback starts with the success marker. -/
theorem recommendFallback_marker (d : String) :
    strStartsWith (recommendFallback d) markerRecommendations = true := by
  have h : strStartsWith (recommendFallback d) markerRecommendations =
      List.isPrefixOf markerRecommendations.data
        (markerRecommendations.data ++
          ("\nI found these events but couldn't verify all details:\n".data ++ d.data)) := rfl
  rw [h, isPrefixOf_append_self]

/-- The verification fallback is never the empty string. -/
theorem recommendFallback_ne_empty (d : String) : recommendFallback d ≠ "" := by
  intro h
  have h2 : (recommendFallback d).data = ([] : List Char) := congrArg String.data h
  rw [show (recommendFallback d).data =
      'R' :: ("ECOMMENDATIONS\nI found these events but couldn't verify all details:\n".data ++
        d.data) from rfl] at h2
  simp at h2

/-- The loop never completes more full cycles than its step budget. -/
theorem runGraphAux_cycles_le (replies : Nat → ModelStep) :
    ∀ (n calls : Nat), (runGraphAux replies n calls).1 ≤ n := by
  intro n
  induction n using Nat.strong_induction_on with
  | _ n ih =>
    intro calls
    match n with
    | 0 => simp [runGraphAux]
    | 1 =>
      cases h : replies calls with
      | fault => simp [runGraphAux, h]
      | finalAnswer s => simp [runGraphAux, h]
      | requestTool => simp [runGraphAux, h]
    | m + 2 =>
      cases h : replies calls with
      | fault => simp [runGraphAux, h]
      | finalAnswer s => simp [runGraphAux, h]
      | requestTool =>
        have hih := ih m (by omega) (calls + 1)
        simp only [runGraphAux, h]
        omega

/-- Directive extraction yields nothing when the summary member is absent or
falsy and the parsed value is not `null`. -/
theorem searchQueriesOfParsed_notruthy (v : JsonValue) (hn : v ≠ JsonValue.null)
    (hm : ∀ m, summaryMember v = some m → jsTruthy m = false) :
    searchQueriesOfParsed v = .ok [] := by
  cases v with
  | null => exact absurd rfl hn
  | bool b => simp [searchQueriesOfParsed, summaryMember]
  | num m e => simp [searchQueriesOfParsed, summaryMember]
  | str s => simp [searchQueriesOfParsed, summaryMember]
  | arr xs => simp [searchQueriesOfParsed, summaryMember]
  | obj fs =>
    rcases hsm : jsLookup fs "searchSummary" with _ | m
    · simp [searchQueriesOfParsed, summaryMember, hsm]
    · have hf := hm m (by simpa [summaryMember] using hsm)
      simp [searchQueriesOfParsed, summaryMember, hsm, hf]

/-- C1 (amended): for every retrieval output containing the forward marker, the
search directives the verification agent derives from the forwarded enhanced
query are exactly the non-empty trimmed lines of the trimmed text BETWEEN the
first and second occurrence of the marker (all text after the marker only when
it occurs exactly once), and the forwarded `dbResults` field is the trimmed
text preceding the first occurrence. -/
theorem claim1_theorem (q d : String) (h : jsIncludes d markerForward = true) :
    computeSearchQueries (jsonStringify (enhancedQueryJson q d)) =
      nonEmptyTrimmedLines (jsTrim ((jsSplit d markerForward).getD 1 "")) ∧
    enhancedQueryJson q d =
      JsonValue.obj
        [("originalQuery", .str q),
         ("searchSummary", .str (jsTrim ((jsSplit d markerForward).getD 1 ""))),
         ("dbResults", .str (jsTrim ((jsSplit d markerForward).headD "")))] :=
  ⟨computeSearchQueries_enhanced q d, rfl⟩

/-- C1 witness: a single-marker output with two directive lines. -/
theorem claim1_witness :
    jsIncludes "A\nPASS_TO_WEB_AGENT\nfoo\nbar" markerForward = true ∧
    computeSearchQueries
      (jsonStringify (enhancedQueryJson "brunch in Atlanta" "A\nPASS_TO_WEB_AGENT\nfoo\nbar")) =
      ["foo", "bar"] :=
  ⟨rfl, by
    rw [(claim1_theorem ("brunch in Atlanta") ("A\nPASS_TO_WEB_AGENT\nfoo\nbar") rfl).1]
    rfl⟩

/-- C1 counterexample: with the marker occurring twice, the code only uses the
segment between the two occurrences, while the claim predicts everything after
the first occurrence. -/
theorem claim1_counterexample :
    computeSearchQueries
      (jsonStringify (enhancedQueryJson "q" "A\nPASS_TO_WEB_AGENT\nx\nPASS_TO_WEB_AGENT\ny")) =
      ["x"] ∧
    nonEmptyTrimmedLines (specAfterFirstMarker "A\nPASS_TO_WEB_AGENT\nx\nPASS_TO_WEB_AGENT\ny") =
      ["x", "PASS_TO_WEB_AGENT", "y"] ∧
    (["x"] : List String) ≠ ["x", "PASS_TO_WEB_AGENT", "y"] :=
  ⟨by rw [computeSearchQueries_enhanced]; rfl, by rfl, by decide⟩

/-- C2: when the retrieval output contains neither marker, the controller
returns it unmodified (for every behaviour of the search and synthesis
collaborators, so no verification outcome can influence the result). -/
theorem claim2_theorem (env : AgentEnv) (q : String)
    (h1 : jsIncludes (eventLookupAgent env.replies) markerForward = false)
    (h2 : jsIncludes (eventLookupAgent env.replies) markerNoResults = false) :
    callAgent env q = Except.ok (eventLookupAgent env.replies) := by
  by_cases hd : eventLookupAgent env.replies = "" <;>
    simp [callAgent, callAgentBody, hd, h1, h2]

/-- C2 witness: a plain answer with neither marker is passed through. -/
theorem claim2_witness :
    jsIncludes (eventLookupAgent (fun _ => ModelStep.finalAnswer "hello")) markerForward = false ∧
    jsIncludes (eventLookupAgent (fun _ => ModelStep.finalAnswer "hello")) markerNoResults = false ∧
    callAgent
      ⟨fun _ => ModelStep.finalAnswer "hello", fun _ _ => SearchOutcome.failure "offline",
        fun _ _ => SynthOutcome.modelError, fun _ => false⟩ "events in Atlanta" =
      Except.ok "hello" :=
  ⟨rfl, rfl,
    claim2_theorem
      ⟨fun _ => ModelStep.finalAnswer "hello", fun _ _ => SearchOutcome.failure "offline",
        fun _ _ => SynthOutcome.modelError, fun _ => false⟩ "events in Atlanta" rfl rfl⟩

/-- C3 (amended): when the forward marker is present but the directive block
trims to nothing, the forwarded `searchSummary` is the empty string, which is
falsy, so the verification agent issues ZERO web searches (there is no
fallback to the `dbResults` summary). -/
theorem claim3_theorem (q d : String) (h : jsIncludes d markerForward = true)
    (he : jsTrim ((jsSplit d markerForward).getD 1 "") = "") :
    computeSearchQueries (jsonStringify (enhancedQueryJson q d)) = [] := by
  rw [computeSearchQueries_enhanced, he]
  rfl

/-- C3 witness: a forward marker followed only by whitespace. -/
theorem claim3_witness :
    jsIncludes "A\nPASS_TO_WEB_AGENT\n \n" markerForward = true ∧
    jsTrim ((jsSplit "A\nPASS_TO_WEB_AGENT\n \n" markerForward).getD 1 "") = "" ∧
    computeSearchQueries (jsonStringify (enhancedQueryJson "q" "A\nPASS_TO_WEB_AGENT\n \n")) = [] :=
  ⟨rfl, rfl, claim3_theorem ("q") ("A\nPASS_TO_WEB_AGENT\n \n") rfl rfl⟩

/-- C3 counterexample: with an empty directive block the directive list is
empty — it is NOT the db summary as sole directive, so no search is issued. -/
theorem claim3_counterexample :
    computeSearchQueries (jsonStringify (enhancedQueryJson "q" "A\nPASS_TO_WEB_AGENT\n \n")) = [] ∧
    jsTrim ((jsSplit "A\nPASS_TO_WEB_AGENT\n \n" markerForward).headD "") = "A" ∧
    ([] : List String) ≠ ["A"] :=
  ⟨by rw [computeSearchQueries_enhanced]; rfl, rfl, by decide⟩

/-- C4: the retrieval loop performs at most 15 full cycles under the recursion
limit of 15 supersteps and always terminates; hitting the ceiling makes the
enclosing agent function return the reported `NO_RESULTS_FOUND` value instead
of propagating the thrown recursion error. -/
theorem claim4_theorem (replies : Nat → ModelStep) :
    (runGraphAux replies retrievalRecursionLimit 0).1 ≤ 15 ∧
    ((runGraphAux replies retrievalRecursionLimit 0).2 = Except.error () →
      eventLookupAgent replies = markerNoResults) := by
  constructor
  · exact runGraphAux_cycles_le replies retrievalRecursionLimit 0
  · intro h
    simp [eventLookupAgent, h]

/-- C4 witness: a model that always requests a tool call hits the ceiling and
the agent reports the failure value. -/
theorem claim4_witness :
    (runGraphAux (fun _ => ModelStep.requestTool) retrievalRecursionLimit 0).2 =
      Except.error () ∧
    (runGraphAux (fun _ => ModelStep.requestTool) retrievalRecursionLimit 0).1 ≤ 15 ∧
    eventLookupAgent (fun _ => ModelStep.requestTool) = markerNoResults :=
  ⟨rfl, (claim4_theorem (fun _ => ModelStep.requestTool)).1,
    (claim4_theorem (fun _ => ModelStep.requestTool)).2 rfl⟩

/-- C5 (amended): with every search failing, the success marker is only
guaranteed on the synthesis-failure and synthesis-timeout paths, where the
deterministic non-empty fallback (which starts with RECOMMENDATIONS) is
returned; on the synthesis-success path the agent returns the model text
verbatim. -/
theorem claim5_theorem (env : AgentEnv) (q d : String)
    (hs : ∀ s ms, ∃ e, env.searchOutcome s ms = SearchOutcome.failure e)
    (hy : ∀ p ms, env.synthOutcome p ms = SynthOutcome.modelError ∨
      env.synthOutcome p ms = SynthOutcome.timeout) :
    webSearchAgent env q d = recommendFallback d ∧
    strStartsWith (recommendFallback d) markerRecommendations = true ∧
    recommendFallback d ≠ "" := by
  refine ⟨?_, recommendFallback_marker d, recommendFallback_ne_empty d⟩
  unfold webSearchAgent
  rcases hy
      (synthesisPrompt q d
        ((computeSearchQueries q).map
          (fun q2 => searchRecord q2 (env.searchOutcome q2 searchQueryTimeoutMs))))
      synthesisTimeoutMs with h | h <;> rw [h]

/-- C5 witness: all searches failing and synthesis failing still produce the
marker-prefixed fallback. -/
theorem claim5_witness :
    webSearchAgent
      ⟨fun _ => ModelStep.finalAnswer "", fun _ _ => SearchOutcome.failure "Search timeout",
        fun _ _ => SynthOutcome.modelError, fun _ => false⟩ "q" "db" =
      recommendFallback "db" ∧
    strStartsWith (recommendFallback "db") markerRecommendations = true :=
  ⟨(claim5_theorem
      ⟨fun _ => ModelStep.finalAnswer "", fun _ _ => SearchOutcome.failure "Search timeout",
        fun _ _ => SynthOutcome.modelError, fun _ => false⟩ "q" "db"
      (fun s ms => ⟨"Search timeout", rfl⟩) (fun p ms => Or.inl rfl)).1,
    (claim5_theorem
      ⟨fun _ => ModelStep.finalAnswer "", fun _ _ => SearchOutcome.failure "Search timeout",
        fun _ _ => SynthOutcome.modelError, fun _ => false⟩ "q" "db"
      (fun s ms => ⟨"Search timeout", rfl⟩) (fun p ms => Or.inl rfl)).2.1⟩

/-- C5 counterexample: with every search failing but the synthesis model
answering "hello", the agent returns "hello", which does not start with the
success marker — the marker is not guaranteed on the synthesis-success path. -/
theorem claim5_counterexample :
    webSearchAgent
      ⟨fun _ => ModelStep.finalAnswer "", fun _ _ => SearchOutcome.failure "Search timeout",
        fun _ _ => SynthOutcome.content "hello", fun _ => false⟩ "q" "db" = "hello" ∧
    strStartsWith "hello" markerRecommendations = false :=
  ⟨rfl, rfl⟩

/-- C6 (amended): with the no-results marker (and no forward marker) the
controller runs the web-only verification; the fixed nothing-found string is
returned exactly when the whole 45s stage race rejects — when the stage does
not time out (in particular when merely every web query fails), the controller
returns the verification agent's own output instead. -/
theorem claim6_theorem (env : AgentEnv) (q : String)
    (h1 : jsIncludes (eventLookupAgent env.replies) markerForward = false)
    (h2 : jsIncludes (eventLookupAgent env.replies) markerNoResults = true) :
    (env.stageTimedOut webStageTimeoutMs = true →
      callAgent env q = Except.ok nothingFoundMsg) ∧
    (env.stageTimedOut webStageTimeoutMs = false →
      callAgent env q = Except.ok (webSearchAgent env q "No database results found.")) := by
  have hd : eventLookupAgent env.replies ≠ "" := by
    intro h0
    rw [h0] at h2
    exact absurd h2 (by decide)
  constructor <;> intro ht <;>
    simp [callAgent, callAgentBody, raceWebOnly, hd, h1, h2, ht]

/-- C6 witness: stage timeout in web-only mode yields the nothing-found
string. -/
theorem claim6_witness :
    jsIncludes (eventLookupAgent (fun _ => ModelStep.finalAnswer "NO_RESULTS_FOUND"))
      markerForward = false ∧
    jsIncludes (eventLookupAgent (fun _ => ModelStep.finalAnswer "NO_RESULTS_FOUND"))
      markerNoResults = true ∧
    callAgent
      ⟨fun _ => ModelStep.finalAnswer "NO_RESULTS_FOUND",
        fun _ _ => SearchOutcome.failure "Search timeout",
        fun _ _ => SynthOutcome.modelError, fun _ => true⟩ "quiet city" =
      Except.ok nothingFoundMsg :=
  ⟨rfl, rfl,
    (claim6_theorem
      ⟨fun _ => ModelStep.finalAnswer "NO_RESULTS_FOUND",
        fun _ _ => SearchOutcome.failure "Search timeout",
        fun _ _ => SynthOutcome.modelError, fun _ => true⟩ "quiet city" rfl rfl).1 rfl⟩

/-- C6 counterexample: with every web query failing (and synthesis failing
too) but no stage timeout, the controller returns the verification agent's
fallback built from "No database results found.", not the fixed nothing-found
string the claim predicts. -/
theorem claim6_counterexample :
    callAgent
      ⟨fun _ => ModelStep.finalAnswer "NO_RESULTS_FOUND",
        fun _ _ => SearchOutcome.failure "Search timeout",
        fun _ _ => SynthOutcome.modelError, fun _ => false⟩ "events nowhere" =
      Except.ok
        "RECOMMENDATIONS\nI found these events but couldn't verify all details:\nNo database results found." ∧
    ("RECOMMENDATIONS\nI found these events but couldn't verify all details:\nNo database results found." : String) ≠
      nothingFoundMsg :=
  ⟨rfl, by decide⟩

/-- C7: for every collaborator behaviour the controller resolves with a value
(the boundary catch maps any fault reaching it to the fixed apology), so no
raw exception ever propagates to the caller. -/
theorem claim7_theorem (env : AgentEnv) (q : String) :
    ∃ s, callAgent env q = Except.ok s := by
  cases h : callAgentBody env q with
  | ok s => exact ⟨s, by simp [callAgent, h]⟩
  | error e => exact ⟨apologyMsg, by simp [callAgent, h]⟩

/-- C8: the configured stage deadlines are 10s per web search query, 15s for
the synthesis turn, and 45s for the whole web stage as raced by the
controller. -/
theorem claim8_theorem :
    searchQueryTimeoutMs = 10 * 1000 ∧ synthesisTimeoutMs = 15 * 1000 ∧
      webStageTimeoutMs = 45 * 1000 := by
  decide

/-- C9 (amended): an empty (or nullish) vector-search result and a thrown
collaborator error both make the lookup tool report the NO_RESULTS_FOUND
signal, but the error case appends the error text as an extra field, so the
two serialized tool results are not identical. -/
theorem claim9_theorem (q : String) (rs : Option (List JsonValue)) (m : String)
    (h : rs = none ∨ rs = some []) :
    eventLookupTool q (VsOutcome.ok rs) =
      jsonStringify (.obj [("message", .str markerNoResults)]) ∧
    jsIncludes (eventLookupTool q (VsOutcome.ok rs)) markerNoResults = true ∧
    jsIncludes (eventLookupTool q (VsOutcome.err m)) markerNoResults = true := by
  have h1 : eventLookupTool q (VsOutcome.ok rs) =
      jsonStringify (.obj [("message", .str markerNoResults)]) := by
    rcases h with h | h <;> subst h <;> rfl
  refine ⟨h1, ?_, ?_⟩
  · rw [h1]
    rfl
  · show listContains markerNoResults.data (eventLookupTool q (VsOutcome.err m)).data = true
    rw [show (eventLookupTool q (VsOutcome.err m)).data =
        ('{' :: ('"' :: ("message".data ++ ['"', ':', '"']))) ++
          (markerNoResults.data ++
            ('"' :: ',' :: ((strLit "error" ++ (':' :: strLit m)) ++ ['}']))) from rfl]
    exact listContains_append_right _ _ (listContains_self_append _ _ (by decide))

/-- C9 witness: the empty-list case and a concrete error both carry the
no-results signal. -/
theorem claim9_witness :
    (some ([] : List JsonValue) = none ∨ some ([] : List JsonValue) = some []) ∧
    jsIncludes (eventLookupTool "events in Atlanta" (VsOutcome.ok (some [])))
      markerNoResults = true ∧
    jsIncludes (eventLookupTool "events in Atlanta" (VsOutcome.err "network down"))
      markerNoResults = true :=
  ⟨Or.inr rfl,
    (claim9_theorem ("events in Atlanta") (some []) ("network down") (Or.inr rfl)).2.1,
    (claim9_theorem ("events in Atlanta") (some []) ("network down") (Or.inr rfl)).2.2⟩

/-- C9 counterexample: the two tool results are different strings — the error
case is distinguishable by its extra `error` field. -/
theorem claim9_counterexample :
    eventLookupTool "q" (VsOutcome.ok (some [])) =
      jsonStringify (.obj [("message", .str markerNoResults)]) ∧
    eventLookupTool "q" (VsOutcome.err "boom") =
      jsonStringify (.obj [("message", .str markerNoResults), ("error", .str "boom")]) ∧
    eventLookupTool "q" (VsOutcome.ok (some [])) ≠ eventLookupTool "q" (VsOutcome.err "boom") :=
  ⟨rfl, rfl, by decide⟩

/-- C10 (amended): in web-only mode a query that parses as JSON without a
truthy `searchSummary` yields an empty directive list — except that a query
parsing to JSON `null` makes the property access throw, and the catch then
makes the query itself the sole directive (as for unparseable queries). -/
theorem claim10_theorem :
    (∀ (q : String) (v : JsonValue), jsonParse q = some v → v ≠ JsonValue.null →
      (∀ m, summaryMember v = some m → jsTruthy m = false) →
      computeSearchQueries q = []) ∧
    (∀ q : String, jsonParse q = some JsonValue.null → computeSearchQueries q = [q]) := by
  constructor
  · intro q v hp hn hm
    unfold computeSearchQueries
    rw [hp]
    show (match searchQueriesOfParsed v with
          | .ok qs => qs
          | .error _ => [q]) = []
    rw [searchQueriesOfParsed_notruthy v hn hm]
  · intro q hp
    unfold computeSearchQueries
    rw [hp]
    rfl

/-- C10 witness: the JSON queries "42" and "null" behave differently — zero
directives for the number, the query itself for null. -/
theorem claim10_witness :
    jsonParse "42" = some (JsonValue.num 42 0) ∧
    computeSearchQueries "42" = [] ∧
    jsonParse "null" = some JsonValue.null ∧
    computeSearchQueries "null" = ["null"] :=
  ⟨rfl,
    claim10_theorem.1 "42" (JsonValue.num 42 0) rfl (by simp)
      (fun m hm => by simp [summaryMember] at hm),
    rfl,
    claim10_theorem.2 "null" rfl⟩

/-- C10 counterexample: for the user query "null" the directive list does not
stay empty — the property access on `null` throws and the fallback makes the
query the sole directive, so one web search is issued. -/
theorem claim10_counterexample :
    computeSearchQueries "null" = ["null"] ∧ (["null"] : List String) ≠ [] :=
  ⟨rfl, by decide⟩
